import Mathlib

/-!
Shallow embedding of the SimulatorCore simulated-object layer
(`src/engine/objects/Zone.ts` and `src/engine/objects/robot/SimRobot.ts`).

Numeric JS values are modelled as exact rationals (all arithmetic in the
embedded code is copying and halving, exact at every input considered).
Angles are modelled as values `rad + pic * pi` with rational `rad` and
`pic`, so the constant `Math.PI / 2` written by the source is the exact
value `⟨0, 1/2⟩` and runtime body angles are `⟨a, 0⟩`.

Parts of the repository that the sources reference but whose code is not
provided (the `SimObject` base class, `SimRobotDrivetrain`, the physics
solver and renderer) are modelled from the specification and are marked
`Modelled from the spec:` in their doc comments.
-/

namespace SimCore

/-- A 2D point/vector as used by both `THREE.Vector2` and planck's `Vec2`
(the embedding identifies them: both are plain records of two numbers). -/
structure Vector2d where
  x : ℚ
  y : ℚ
deriving DecidableEq, Repr

/-- A 3D vector (`THREE.Vector3`, used for mesh positions). -/
structure Vector3d where
  x : ℚ
  y : ℚ
  z : ℚ
deriving DecidableEq, Repr

/-- An exact angle value `rad + pic * π` (`rad`, `pic` rational).  The
source writes the constants `0` and `Math.PI / 2` and the runtime value
`-body.getAngle()`; all are representable exactly in this form. -/
structure AngleVal where
  rad : ℚ
  pic : ℚ
deriving DecidableEq, Repr

/-- The zero angle. -/
def AngleVal.zero : AngleVal := ⟨0, 0⟩

/-- The constant `Math.PI / 2` (a quarter turn). -/
def AngleVal.quarterTurn : AngleVal := ⟨0, 1 / 2⟩

/-- Euler rotation of a THREE mesh (x, y, z components). -/
structure Euler where
  x : AngleVal
  y : AngleVal
  z : AngleVal
deriving DecidableEq, Repr

/-- The default (identity) rotation of a freshly created `THREE.Mesh`. -/
def Euler.zero : Euler := ⟨AngleVal.zero, AngleVal.zero, AngleVal.zero⟩

/-- The geometry attached to a mesh, restricted to the geometries the two
source files construct. -/
inductive Geometry where
  /-- Geometry from `THREE.PlaneGeometry(width, height)` (full dimensions). -/
  | plane (width height : ℚ)
  /-- Geometry from `THREE.ShapeBufferGeometry` of a `THREE.Shape().ellipse(cx, cy, xRadius, yRadius, 0, 2π, false, 0)`. -/
  | shapeEllipse (cx cy xRadius yRadius : ℚ)
  /-- Geometry from `THREE.ShapeBufferGeometry` of a `THREE.Shape(points)`. -/
  | shapePoints (points : List Vector2d)
  /-- Geometry from `THREE.BoxGeometry(x, y, z)`. -/
  | boxGeom (x y z : ℚ)
deriving DecidableEq, Repr

/-- A THREE material, as configured by the two source files
(`MeshBasicMaterial` for zones, `MeshStandardMaterial` for robots).
`color`/`opacity` are `none` when the corresponding parameter was not
supplied at construction (THREE then uses its own defaults). -/
structure Material where
  kind : String
  doubleSide : Bool
  transparent : Bool
  color : Option ℚ
  opacity : Option ℚ
deriving DecidableEq, Repr

/-- A THREE mesh: geometry, material and transform. -/
structure Mesh where
  geometry : Geometry
  material : Material
  position : Vector3d
  rotation : Euler
deriving DecidableEq, Repr

/-- A planck fixture shape as constructed by the sources: `Box(hx, hy)`
(half-extents) or `Polygon(points)`. -/
inductive PhysShape where
  | box (hx hy : ℚ)
  | polygon (points : List Vector2d)
deriving DecidableEq, Repr

/-- planck `BodyDef`, restricted to the fields the sources set; fields a
constructor leaves out are `none`. -/
structure BodyDef where
  type : String
  position : Vector2d
  angle : ℚ
  linearDamping : Option ℚ
  angularDamping : Option ℚ
  bullet : Option Bool
deriving DecidableEq, Repr

/-- The `IZoneFixtureUserData` attached to a zone's fixture. -/
structure IZoneFixtureUserData where
  selfGuid : String
  type : String
  zoneId : String
  zoneColor : Option ℚ
deriving DecidableEq, Repr

/-- planck `FixtureDef`, restricted to the fields the sources set. -/
structure FixtureDef where
  shape : PhysShape
  isSensor : Bool
  density : Option ℚ
  friction : Option ℚ
  restitution : Option ℚ
  userData : Option IZoneFixtureUserData
deriving DecidableEq, Repr

/-! ### Zone specs (`IZoneSpec` from `CoreSpecs`) -/

/-- The `rectangleZone` variant: full x/z lengths. -/
structure IRectangleZoneSpec where
  xLength : ℚ
  zLength : ℚ
deriving DecidableEq, Repr

/-- The `ellipseZone` variant: x/z radii. -/
structure IEllipseZoneSpec where
  xRadius : ℚ
  zRadius : ℚ
deriving DecidableEq, Repr

/-- The `polygonZone` variant: an ordered list of 2D points. -/
structure IPolygonZoneSpec where
  points : List Vector2d
deriving DecidableEq, Repr

/-- The declarative zone spec consumed by the `Zone` constructor.
Optional fields are `Option`; in the source they are tested with
`!== undefined` or truthiness (all the optional values here are objects
or numbers tested with `!== undefined`, so `Option` is faithful). -/
structure IZoneSpec where
  zoneId : String
  baseColor : Option ℚ
  opacity : Option ℚ
  initialPosition : Option Vector2d
  rectangleZone : Option IRectangleZoneSpec
  ellipseZone : Option IEllipseZoneSpec
  polygonZone : Option IPolygonZoneSpec
deriving DecidableEq, Repr

/-- Number of shape variants present in a zone spec (the spec's
exactly-one-of rule says this should be 1). -/
def IZoneSpec.variantCount (s : IZoneSpec) : ℕ :=
  (if s.rectangleZone.isSome then 1 else 0) +
  (if s.ellipseZone.isSome then 1 else 0) +
  (if s.polygonZone.isSome then 1 else 0)

/-! ### Zone construction (`Zone.ts`, constructor) -/

/-- A fully constructed `Zone` object (fields `_mesh`, `_bodySpecs`,
`_fixtureSpecs`, `_zoneId` of the TS class, plus the `guid` assigned by
the `SimObject` base). -/
structure Zone where
  guid : String
  zoneId : String
  mesh : Mesh
  bodySpecs : BodyDef
  fixtureSpecs : FixtureDef
deriving DecidableEq, Repr

deriving instance DecidableEq for Except

/-- Outcome of running the `Zone` constructor: either a constructed zone
or a thrown JS error, together with the `console.warn` messages emitted. -/
structure ZoneConstructOutcome where
  result : Except String Zone
  warnings : List String
deriving DecidableEq, Repr

/-- The `Zone` constructor (`Zone.ts` lines 22-142), embedded line by
line.  The `guid` parameter stands for the unique id assigned by the
`SimObject` base class (`Modelled from the spec:` the `SimObject` source
is not provided; it assigns a globally unique identifier at
construction).

When no shape variant is present the source runs
`console.warn("Some type of zone must be specified")` and then executes
`zoneMesh.position.y = 0` with `zoneMesh` still `undefined`, which throws
a `TypeError`; the outcome is therefore an error, not a zone. -/
def Zone.construct (guid : String) (spec : IZoneSpec) : ZoneConstructOutcome :=
  let initialPosition : Vector2d :=
    match spec.initialPosition with
    | some p => ⟨p.x, p.y⟩
    | none => ⟨0, 0⟩
  let zoneMaterial : Material :=
    { kind := "MeshBasicMaterial"
      doubleSide := true
      transparent := true
      color := spec.baseColor
      opacity := spec.opacity }
  -- the if / else-if chain on spec.rectangleZone / spec.ellipseZone /
  -- spec.polygonZone, producing (fixtureShape, zoneMesh geometry)
  let shapeAndGeom : Option (PhysShape × Geometry) :=
    match spec.rectangleZone with
    | some r =>
        some (PhysShape.box (r.xLength / 2) (r.zLength / 2),
              Geometry.plane r.xLength r.zLength)
    | none =>
      match spec.ellipseZone with
      | some e =>
          some (PhysShape.box e.xRadius e.zRadius,
                Geometry.shapeEllipse initialPosition.x initialPosition.y
                  e.xRadius e.zRadius)
      | none =>
        match spec.polygonZone with
        | some p =>
            let shapePoints : List Vector2d :=
              p.points.map (fun pt => ⟨pt.x, pt.y⟩)
            let fixturePoints : List Vector2d :=
              p.points.map (fun pt => ⟨pt.x, pt.y⟩)
            some (PhysShape.polygon fixturePoints,
                  Geometry.shapePoints shapePoints)
        | none => none
  match shapeAndGeom with
  | none =>
      { result := Except.error
          "TypeError: Cannot read properties of undefined (reading position)"
        warnings := ["Some type of zone must be specified"] }
  | some (fixtureShape, zoneGeom) =>
      let zoneMesh : Mesh :=
        { geometry := zoneGeom
          material := zoneMaterial
          position := ⟨initialPosition.x, 0, initialPosition.y⟩
          rotation := { Euler.zero with x := AngleVal.quarterTurn } }
      let userData : IZoneFixtureUserData :=
        { selfGuid := guid
          type := "zone"
          zoneId := spec.zoneId
          zoneColor := spec.baseColor }
      let zone : Zone :=
        { guid := guid
          zoneId := spec.zoneId
          mesh := zoneMesh
          bodySpecs :=
            { type := "static"
              position := ⟨initialPosition.x, initialPosition.y⟩
              angle := 0
              linearDamping := none
              angularDamping := none
              bullet := none }
          fixtureSpecs :=
            { shape := fixtureShape
              isSensor := true
              density := none
              friction := none
              restitution := none
              userData := some userData } }
      { result := Except.ok zone, warnings := [] }

/-- Accessor `Zone.getBodySpecs()`. -/
def Zone.getBodySpecs (z : Zone) : BodyDef := z.bodySpecs

/-- Accessor `Zone.getFixtureDef()`. -/
def Zone.getFixtureDef (z : Zone) : FixtureDef := z.fixtureSpecs

/-- Accessor `Zone.getZoneId()`. -/
def Zone.getZoneId (z : Zone) : String := z.zoneId

/-- Mutator `Zone.setColor(color)`: sets the mesh material's color. -/
def Zone.setColor (z : Zone) (color : ℚ) : Zone :=
  { z with mesh :=
      { z.mesh with material := { z.mesh.material with color := some color } } }

/-- Mutator `Zone.setOpacity(opacity)`: sets the mesh material's opacity. -/
def Zone.setOpacity (z : Zone) (opacity : ℚ) : Zone :=
  { z with mesh :=
      { z.mesh with material := { z.mesh.material with opacity := some opacity } } }

/-! ### Robot specs and `SimRobot` construction (`SimRobot.ts`) -/

/-- Robot dimensions (x, y, z). -/
structure Dimensions where
  x : ℚ
  y : ℚ
  z : ℚ
deriving DecidableEq, Repr

/-- The declarative robot spec (`IRobotSpec`), restricted to the fields
`SimRobot` itself reads; drivetrain-specific fields are consumed opaquely
by the drivetrain and are not represented. -/
structure IRobotSpec where
  dimensions : Dimensions
  baseColor : Option ℚ
  initialPosition : Option Vector2d
deriving DecidableEq, Repr

/-- The constant `ROBOT_DEFAULT_COLOR = 0x00ff00`. -/
def ROBOT_DEFAULT_COLOR : ℚ := 0x00ff00

/-- A runtime physics body as read/affected by this layer: the transform
(`getWorldCenter()`, `getAngle()`) maintained by the physics world, and a
velocity/force channel the drivetrain may write.  Modelled from the spec:
the physics solver that owns bodies is an external collaborator; applying
motor forces/velocities changes only `linearVelocity` here — the
transform moves only when the physics world steps. -/
structure Body where
  worldCenter : Vector2d
  angle : ℚ
  linearVelocity : Vector2d
deriving DecidableEq, Repr

/-- A wheel child object produced by the drivetrain: its own mesh
transform and body.  Modelled from the spec: wheels are `SimObject`s with
their own body/mesh; their geometry is a drivetrain concern not fixed by
this core, so only the transform state appears. -/
structure WheelState where
  meshPosition : Vector3d
  meshRotation : Euler
  body : Body
deriving DecidableEq, Repr

/-- What `SimRobot`'s constructor consumes from the drivetrain it
creates.  Modelled from the spec: `SimRobotDrivetrain` (source not
provided) exposes the owned wheel object list and a read-only vertical
mounting offset `yOffset`. -/
structure DrivetrainOutput where
  wheelObjects : List WheelState
  yOffset : ℚ
deriving DecidableEq, Repr

/-- A fully constructed `SimRobot` (fields `_mesh`, `_bodySpecs`,
`_fixtureSpecs` and the children list of the TS class). -/
structure SimRobot where
  mesh : Mesh
  bodySpecs : BodyDef
  fixtureSpecs : FixtureDef
  children : List WheelState
deriving DecidableEq, Repr

/-- The `SimRobot` constructor (`SimRobot.ts` lines 31-79), embedded
line by line.  The `drivetrain` parameter stands for the
`SimRobotDrivetrain` the constructor creates from the spec (Modelled
from the spec: the drivetrain source is not provided; only its exposed
`wheelObjects` and `yOffset` are consumed here).  `translateY(-yOffset)`
moves the mesh along its local y axis; the robot mesh is unrotated, so
it adds `-yOffset` to `position.y`. -/
def SimRobot.construct (spec : IRobotSpec) (drivetrain : DrivetrainOutput) :
    SimRobot :=
  let color : ℚ :=
    match spec.baseColor with
    | some c => c
    | none => ROBOT_DEFAULT_COLOR
  let bodyMesh : Mesh :=
    { geometry := Geometry.boxGeom spec.dimensions.x spec.dimensions.y
        spec.dimensions.z
      material :=
        { kind := "MeshStandardMaterial"
          doubleSide := false
          transparent := false
          color := some color
          opacity := none }
      position := ⟨0, 0, 0⟩
      rotation := Euler.zero }
  let bodyPos : Vector2d :=
    match spec.initialPosition with
    | some p => ⟨p.x, p.y⟩
    | none => ⟨0, 0⟩
  { mesh := { bodyMesh with position :=
      { bodyMesh.position with y := bodyMesh.position.y + (-drivetrain.yOffset) } }
    bodySpecs :=
      { type := "dynamic"
        position := bodyPos
        angle := 0
        linearDamping := some 0.5
        angularDamping := some 0.3
        bullet := some true }
    fixtureSpecs :=
      { shape := PhysShape.box (spec.dimensions.x / 2) (spec.dimensions.z / 2)
        isSensor := false
        density := some 1
        friction := some 0.3
        restitution := some 0.4
        userData := none }
    children := drivetrain.wheelObjects }

/-- Accessor `SimRobot.getBodySpecs()`. -/
def SimRobot.getBodySpecs (r : SimRobot) : BodyDef := r.bodySpecs

/-- Accessor `SimRobot.getFixtureDef()`. -/
def SimRobot.getFixtureDef (r : SimRobot) : FixtureDef := r.fixtureSpecs

/-! ### Joints (`SimRobot.configureFixtureLinks`) -/

/-- A planck `PrismaticJoint` as created by `configureFixtureLinks`:
the limit configuration passed as the definition object, the two bodies,
the anchor and the axis. -/
structure PrismaticJoint where
  enableLimit : Bool
  lowerTranslation : ℚ
  upperTranslation : ℚ
  bodyA : Body
  bodyB : Body
  anchor : Vector2d
  axis : Vector2d
deriving DecidableEq, Repr

/-- Method `SimRobot.configureFixtureLinks(world)` (`SimRobot.ts` lines
97-113): for every wheel, create one prismatic joint between the chassis
body and the wheel body, anchored at the wheel body's current world
center, with axis `Vec2(1, 0)` and the translation limit enabled at
`lower = upper = 0`.  The chassis body and the wheel bodies are passed
explicitly (they exist in the physics world when this is called); the
returned list is the sequence of joints handed to `world.createJoint`. -/
def SimRobot.configureFixtureLinks (chassisBody : Body)
    (wheelBodies : List Body) : List PrismaticJoint :=
  wheelBodies.map (fun wb =>
    { enableLimit := true
      lowerTranslation := 0
      upperTranslation := 0
      bodyA := chassisBody
      bodyB := wb
      anchor := wb.worldCenter
      axis := ⟨1, 0⟩ })

/-! ### Per-tick update (`Zone.update`, `SimRobot.update`) -/

/-- The runtime state a `Zone.update` call touches: the mesh transform
and the (externally owned) body. -/
structure ZoneState where
  meshPosition : Vector3d
  meshRotation : Euler
  body : Body
deriving DecidableEq, Repr

/-- Method `Zone.update(ms)` (`Zone.ts` lines 145-149): copy the body's world
center into the mesh's x/z position; nothing else changes. -/
def ZoneState.update (s : ZoneState) : ZoneState :=
  { s with meshPosition :=
      ⟨s.body.worldCenter.x, s.meshPosition.y, s.body.worldCenter.y⟩ }

/-- The runtime state a `SimRobot.update` call touches: the chassis mesh
transform, the chassis body, the wheel children, and the per-channel
commanded motor powers held by the drivetrain. -/
structure RobotState where
  meshPosition : Vector3d
  meshRotation : Euler
  body : Body
  wheels : List WheelState
  motorPowers : List ℚ
deriving DecidableEq, Repr

/-- One drivetrain update pass.  Modelled from the spec: the drivetrain
converts the current per-channel commanded powers into physics-level
forces/velocities applied to each wheel body (the exact transmission
model is a drivetrain policy); it writes only the wheel bodies'
velocity channel — world center and angle move only when the physics
world steps.  The natural-number argument is the motor channel of the
first wheel in the list (the full pass starts at channel 0). -/
def drivetrainUpdate (motorPowers : List ℚ) : ℕ → List WheelState →
    List WheelState
  | _, [] => []
  | i, w :: ws =>
      { w with body :=
          { w.body with linearVelocity := ⟨motorPowers.getD i 0, 0⟩ } } ::
        drivetrainUpdate motorPowers (i + 1) ws

/-- The base `SimObject.update` transform synchronization for a wheel
child.  Modelled from the spec: `update` synchronizes the object's
visual transform from its physics body's current world center and angle
(mesh x/z from the world center, yaw from the negated body angle, the
same sign convention the chassis uses). -/
def WheelState.update (w : WheelState) : WheelState :=
  { w with
      meshPosition := ⟨w.body.worldCenter.x, w.meshPosition.y,
        w.body.worldCenter.y⟩
      meshRotation := { w.meshRotation with y := ⟨-w.body.angle, 0⟩ } }

/-- Method `SimRobot.update(ms)` (`SimRobot.ts` lines 81-95): let the
drivetrain update motor forces, update all children, then copy the
chassis body's world center into the mesh x/z position and set the mesh
yaw to the negated body angle. -/
def RobotState.update (s : RobotState) : RobotState :=
  let wheelsAfterDrivetrain := drivetrainUpdate s.motorPowers 0 s.wheels
  let wheelsAfterUpdate := wheelsAfterDrivetrain.map WheelState.update
  { s with
      wheels := wheelsAfterUpdate
      meshPosition := ⟨s.body.worldCenter.x, s.meshPosition.y,
        s.body.worldCenter.y⟩
      meshRotation := { s.meshRotation with y := ⟨-s.body.angle, 0⟩ } }

/-- The visual transform of a zone state: mesh position and rotation. -/
def ZoneState.visual (s : ZoneState) : Vector3d × Euler :=
  (s.meshPosition, s.meshRotation)

/-- The visual transform of a robot state: chassis mesh position and
rotation together with every wheel mesh's position and rotation. -/
def RobotState.visual (s : RobotState) :
    (Vector3d × Euler) × List (Vector3d × Euler) :=
  ((s.meshPosition, s.meshRotation),
   s.wheels.map (fun w => (w.meshPosition, w.meshRotation)))

/-! ### Visual-only zone mutations (`setColor` / `setOpacity`) -/

/-- A call to one of the visual-only zone mutators. -/
inductive ZoneVisualOp where
  | setColor (c : ℚ)
  | setOpacity (o : ℚ)
deriving DecidableEq, Repr

/-- Apply a sequence of `setColor`/`setOpacity` calls to a zone, in
order. -/
def Zone.applyVisualOps (z : Zone) : List ZoneVisualOp → Zone
  | [] => z
  | ZoneVisualOp.setColor c :: rest => (z.setColor c).applyVisualOps rest
  | ZoneVisualOp.setOpacity o :: rest => (z.setOpacity o).applyVisualOps rest

/-! ### The visual world center of the ellipse zone mesh -/

/-- World x/z coordinates of the center of the ellipse baked into a
zone's shape geometry.  The zone mesh is rotated by exactly `π / 2`
about the x axis, so a shape-local point `(lx, ly)` maps to world
`(position.x + lx, position.y, position.z + ly)` (rotation about x by a
quarter turn sends local `(lx, ly, 0)` to `(lx, 0, ly)`); the world x/z
of the ellipse center `(cx, cy)` is therefore
`(position.x + cx, position.z + cy)`.  Returns `none` for non-ellipse
geometry. -/
def Zone.visualEllipseCenterWorldXZ (z : Zone) : Option Vector2d :=
  match z.mesh.geometry with
  | Geometry.shapeEllipse cx cy _ _ =>
      some ⟨z.mesh.position.x + cx, z.mesh.position.z + cy⟩
  | _ => none

/-! ### Concrete instances used by individual claims -/

/-- A zone spec with no shape variant at all. -/
def noShapeSpec : IZoneSpec :=
  { zoneId := "z", baseColor := none, opacity := none, initialPosition := none,
    rectangleZone := none, ellipseZone := none, polygonZone := none }

/-- A zone spec with exactly one shape variant (a rectangle). -/
def oneShapeSpec : IZoneSpec :=
  { zoneId := "s", baseColor := none, opacity := none, initialPosition := none,
    rectangleZone := some ⟨4, 2⟩, ellipseZone := none, polygonZone := none }

/-- An ellipse zone spec with radii (1, 2) and initial position (3, 5). -/
def ellipseSpec35 : IZoneSpec :=
  { zoneId := "e", baseColor := none, opacity := none,
    initialPosition := some ⟨3, 5⟩,
    rectangleZone := none, ellipseZone := some ⟨1, 2⟩, polygonZone := none }

/-- A robot spec with dimensions (2, 1, 3) and no initial position. -/
def robotSpec213 : IRobotSpec :=
  { dimensions := ⟨2, 1, 3⟩, baseColor := none, initialPosition := none }

/-- A rectangle zone spec with xLength 4 and zLength 2. -/
def rectSpec42 : IZoneSpec :=
  { zoneId := "r", baseColor := none, opacity := none, initialPosition := none,
    rectangleZone := some ⟨4, 2⟩, ellipseZone := none, polygonZone := none }

/-- A polygon zone spec with a three-point ring. -/
def polySpec3 : IZoneSpec :=
  { zoneId := "p", baseColor := none, opacity := none, initialPosition := none,
    rectangleZone := none, ellipseZone := none,
    polygonZone := some ⟨[⟨0, 0⟩, ⟨1, 0⟩, ⟨0, 1⟩]⟩ }

/-- A sample wheel body resting at (2, 7). -/
def demoBody : Body :=
  { worldCenter := ⟨2, 7⟩, angle := 0, linearVelocity := ⟨0, 0⟩ }

/-- A sample chassis body resting at the origin. -/
def demoChassis : Body :=
  { worldCenter := ⟨0, 0⟩, angle := 0, linearVelocity := ⟨0, 0⟩ }

/-- A zone spec violating the exactly-one-of rule: both a rectangle and
an ellipse variant are present. -/
def twoShapeSpec : IZoneSpec :=
  { zoneId := "t", baseColor := none, opacity := none, initialPosition := none,
    rectangleZone := some ⟨4, 2⟩, ellipseZone := some ⟨7, 9⟩,
    polygonZone := none }

/-! ## Claims -/

/-- Claim C1, counterexample: for a Zone spec with no shape variant set,
construction does not complete with a Zone object — the outcome is an
error (the warning is logged, then the undefined mesh is dereferenced),
so the claim that construction proceeds with an unusable object is false
at this input. -/
theorem zone_noShape_completes_cex :
    (Zone.construct "g" noShapeSpec).result.isOk = false ∧
    (Zone.construct "g" noShapeSpec).warnings
      = ["Some type of zone must be specified"] := by
  decide

/-- Claim C1 (amended): for every Zone spec with no shape variant set,
construction logs the warning "Some type of zone must be specified" and
then throws a TypeError while dereferencing the still-undefined mesh;
no Zone object is produced. -/
theorem zone_noShape_warns_and_throws (guid : String) (spec : IZoneSpec)
    (h : spec.variantCount = 0) :
    (Zone.construct guid spec).warnings
      = ["Some type of zone must be specified"] ∧
    (Zone.construct guid spec).result = Except.error
      "TypeError: Cannot read properties of undefined (reading position)" := by
  rcases hr : spec.rectangleZone with _ | r <;>
  rcases he : spec.ellipseZone with _ | e <;>
  rcases hp : spec.polygonZone with _ | p <;>
  simp [IZoneSpec.variantCount, hr, he, hp] at h <;>
  simp [Zone.construct, hr, he, hp]

/-- Claim C1, witness: the amended claim instantiated at a concrete
all-`none` zone spec. -/
theorem zone_noShape_warns_and_throws_witness :
    noShapeSpec.variantCount = 0 ∧
    ((Zone.construct "g" noShapeSpec).warnings
      = ["Some type of zone must be specified"] ∧
     (Zone.construct "g" noShapeSpec).result = Except.error
      "TypeError: Cannot read properties of undefined (reading position)") :=
  ⟨by decide, zone_noShape_warns_and_throws "g" noShapeSpec (by decide)⟩

/-- Claim C2: for every valid Zone spec with exactly one shape variant,
construction succeeds and the constructed Zone satisfies
`getFixtureDef().isSensor = true` and `getBodySpecs().type = "static"`,
regardless of which variant was supplied. -/
theorem zone_sensor_static (guid : String) (spec : IZoneSpec)
    (h : spec.variantCount = 1) :
    ((Zone.construct guid spec).result.toOption.map
      (fun z => (z.getFixtureDef.isSensor, z.getBodySpecs.type)))
      = some (true, "static") := by
  rcases hr : spec.rectangleZone with _ | r <;>
  rcases he : spec.ellipseZone with _ | e <;>
  rcases hp : spec.polygonZone with _ | p <;>
  simp [IZoneSpec.variantCount, hr, he, hp] at h <;>
  simp [Zone.construct, Zone.getFixtureDef, Zone.getBodySpecs,
    Except.toOption, hr, he, hp]

/-- Claim C2, witness: the sensor/static invariant instantiated at a
concrete rectangle-only zone spec. -/
theorem zone_sensor_static_witness :
    oneShapeSpec.variantCount = 1 ∧
    ((Zone.construct "g" oneShapeSpec).result.toOption.map
      (fun z => (z.getFixtureDef.isSensor, z.getBodySpecs.type)))
      = some (true, "static") :=
  ⟨by decide, zone_sensor_static "g" oneShapeSpec (by decide)⟩

/-- Claim C3, failing input (code bug): for the ellipse zone spec with
radii (1, 2) and initial position (3, 5), the fixture is the box with
half-extents (1, 2) and the body spec places the body at (3, 5) — but
the visual ellipse's world center is (6, 10): the initial position is
applied twice, once as the ellipse center inside the shape geometry and
once as the mesh position, so the visual center does not coincide with
the body's initial position. -/
theorem zone_ellipse_center_bug :
    ((Zone.construct "g" ellipseSpec35).result.toOption.map
      (fun z => (z.fixtureSpecs.shape, z.bodySpecs.position,
        Zone.visualEllipseCenterWorldXZ z)))
      = some (PhysShape.box 1 2, ⟨3, 5⟩, some ⟨6, 10⟩) ∧
    (⟨6, 10⟩ : Vector2d) ≠ ⟨3, 5⟩ := by
  refine ⟨?_, ?_⟩
  · norm_num [Zone.construct, ellipseSpec35, Zone.visualEllipseCenterWorldXZ,
      Except.toOption]
  · norm_num [Vector2d.mk.injEq]

/-- Claim C4: for every SimRobot spec (and drivetrain output) the body
spec is dynamic with linearDamping 0.5, angularDamping 0.3, bullet true,
angle 0, position initialPosition-or-origin, and the chassis fixture is
a box with half-extents (x/2, z/2), density 1, friction 0.3,
restitution 0.4; concretely, dimensions (2, 1, 3) with no initial
position give body position (0, 0) and half-extents (1, 3/2). -/
theorem simRobot_body_fixture_specs (spec : IRobotSpec)
    (drivetrain : DrivetrainOutput) :
    (SimRobot.construct spec drivetrain).bodySpecs.type = "dynamic" ∧
    (SimRobot.construct spec drivetrain).bodySpecs.linearDamping = some 0.5 ∧
    (SimRobot.construct spec drivetrain).bodySpecs.angularDamping = some 0.3 ∧
    (SimRobot.construct spec drivetrain).bodySpecs.bullet = some true ∧
    (SimRobot.construct spec drivetrain).bodySpecs.angle = 0 ∧
    (SimRobot.construct spec drivetrain).bodySpecs.position
      = spec.initialPosition.getD ⟨0, 0⟩ ∧
    (SimRobot.construct spec drivetrain).fixtureSpecs.shape
      = PhysShape.box (spec.dimensions.x / 2) (spec.dimensions.z / 2) ∧
    (SimRobot.construct spec drivetrain).fixtureSpecs.density = some 1 ∧
    (SimRobot.construct spec drivetrain).fixtureSpecs.friction = some 0.3 ∧
    (SimRobot.construct spec drivetrain).fixtureSpecs.restitution = some 0.4 ∧
    (SimRobot.construct robotSpec213 ⟨[], 0⟩).bodySpecs.position = ⟨0, 0⟩ ∧
    (SimRobot.construct robotSpec213 ⟨[], 0⟩).fixtureSpecs.shape
      = PhysShape.box 1 (3 / 2) := by
  refine ⟨rfl, rfl, rfl, rfl, rfl, ?_, rfl, rfl, rfl, rfl, rfl, ?_⟩
  · rcases hip : spec.initialPosition with _ | ip <;>
      simp [SimRobot.construct, hip]
  · norm_num [SimRobot.construct, robotSpec213]

/-- Claim C5: one `configureFixtureLinks` call creates exactly one joint
per wheel body, and each joint has its translation limit enabled with
lowerTranslation 0 and upperTranslation 0, is anchored at the
corresponding wheel body's current world center, and uses the fixed
axis (1, 0). -/
theorem configureFixtureLinks_joints (chassisBody : Body)
    (wheelBodies : List Body) :
    (SimRobot.configureFixtureLinks chassisBody wheelBodies).length
      = wheelBodies.length ∧
    ∀ i : ℕ, ∀ h : i < wheelBodies.length,
      (SimRobot.configureFixtureLinks chassisBody wheelBodies)[i]? =
        some { enableLimit := true, lowerTranslation := 0, upperTranslation := 0,
               bodyA := chassisBody, bodyB := wheelBodies.get ⟨i, h⟩,
               anchor := (wheelBodies.get ⟨i, h⟩).worldCenter, axis := ⟨1, 0⟩ } := by
  refine ⟨by simp [SimRobot.configureFixtureLinks], ?_⟩
  intro i h
  simp [SimRobot.configureFixtureLinks, List.getElem?_map,
    List.getElem?_eq_getElem, h]

/-- Claim C5, witness: the joint property instantiated at a concrete
chassis body and one-wheel list, with the index bound discharged. -/
theorem configureFixtureLinks_joints_witness :
    (0 : ℕ) < ([demoBody] : List Body).length ∧
    (SimRobot.configureFixtureLinks demoChassis [demoBody]).length
      = ([demoBody] : List Body).length ∧
    (SimRobot.configureFixtureLinks demoChassis [demoBody])[0]? =
      some { enableLimit := true, lowerTranslation := 0, upperTranslation := 0,
             bodyA := demoChassis, bodyB := demoBody,
             anchor := demoBody.worldCenter, axis := ⟨1, 0⟩ } :=
  ⟨by decide,
   (configureFixtureLinks_joints demoChassis [demoBody]).1,
   (configureFixtureLinks_joints demoChassis [demoBody]).2 0 (by decide)⟩

/-- Helper: a second drivetrain-plus-children update pass leaves every
wheel's visual transform unchanged, because the drivetrain writes only
body velocities and the child update is a pure read of the unchanged
body transform. -/
theorem wheelVisual_stable (ps qs : List ℚ) (i j : ℕ) (ws : List WheelState) :
    ((drivetrainUpdate qs j
        ((drivetrainUpdate ps i ws).map WheelState.update)).map
          WheelState.update).map (fun w => (w.meshPosition, w.meshRotation)) =
    ((drivetrainUpdate ps i ws).map WheelState.update).map
      (fun w => (w.meshPosition, w.meshRotation)) := by
  induction ws generalizing i j with
  | nil => rfl
  | cons w ws ih =>
      simp only [drivetrainUpdate, List.map_cons]
      exact congrArg₂ _ rfl (ih (i + 1) (j + 1))

/-- Claim C6: for every Zone and SimRobot runtime state, calling
`update` twice with no intervening physics-world step yields an
identical visual transform (mesh position and rotation, wheels
included) after each call — the visual output is a pure read of the
current body state. -/
theorem update_visual_idempotent (zs : ZoneState) (rs : RobotState) :
    zs.update.update.visual = zs.update.visual ∧
    rs.update.update.visual = rs.update.visual := by
  refine ⟨rfl, ?_⟩
  simp only [RobotState.update, RobotState.visual]
  exact congrArg₂ Prod.mk rfl
    (wheelVisual_stable rs.motorPowers rs.motorPowers 0 0 rs.wheels)

/-- Claim C9: any sequence of `setColor`/`setOpacity` calls changes
neither `getBodySpecs()` nor `getFixtureDef()` (including the fixture
user data carrying the zone id and color) nor `getZoneId()`. -/
theorem zone_visualOps_frame (z : Zone) (ops : List ZoneVisualOp) :
    (z.applyVisualOps ops).getBodySpecs = z.getBodySpecs ∧
    (z.applyVisualOps ops).getFixtureDef = z.getFixtureDef ∧
    (z.applyVisualOps ops).getFixtureDef.userData = z.getFixtureDef.userData ∧
    (z.applyVisualOps ops).getZoneId = z.getZoneId := by
  induction ops generalizing z with
  | nil => exact ⟨rfl, rfl, rfl, rfl⟩
  | cons op rest ih =>
      cases op with
      | setColor c => exact ih (z.setColor c)
      | setOpacity o => exact ih (z.setOpacity o)

/-- Claim C7: for every rectangle Zone spec with xLength L and zLength
W, construction succeeds with a box fixture of half-extents (L/2, W/2),
a plane mesh of full dimensions L on W, and the mesh rotated a quarter
turn about the x axis; concretely, xLength 4 and zLength 2 give box
(2, 1) and a 4 by 2 plane. -/
theorem zone_rectangle_fixture_mesh (guid : String) (spec : IZoneSpec)
    (r : IRectangleZoneSpec) (h : spec.rectangleZone = some r) :
    ((Zone.construct guid spec).result.toOption.map
      (fun z => (z.fixtureSpecs.shape, z.mesh.geometry, z.mesh.rotation)))
      = some (PhysShape.box (r.xLength / 2) (r.zLength / 2),
          Geometry.plane r.xLength r.zLength,
          { Euler.zero with x := AngleVal.quarterTurn }) ∧
    ((Zone.construct "g" rectSpec42).result.toOption.map
      (fun z => (z.fixtureSpecs.shape, z.mesh.geometry)))
      = some (PhysShape.box 2 1, Geometry.plane 4 2) := by
  refine ⟨?_, ?_⟩
  · simp [Zone.construct, Except.toOption, h]
  · norm_num [Zone.construct, rectSpec42, Except.toOption]

/-- Claim C7, witness: the rectangle property instantiated at the
concrete spec with xLength 4 and zLength 2. -/
theorem zone_rectangle_fixture_mesh_witness :
    rectSpec42.rectangleZone = some ⟨4, 2⟩ ∧
    (((Zone.construct "g" rectSpec42).result.toOption.map
      (fun z => (z.fixtureSpecs.shape, z.mesh.geometry, z.mesh.rotation)))
      = some (PhysShape.box (4 / 2) (2 / 2), Geometry.plane 4 2,
          { Euler.zero with x := AngleVal.quarterTurn }) ∧
    ((Zone.construct "g" rectSpec42).result.toOption.map
      (fun z => (z.fixtureSpecs.shape, z.mesh.geometry)))
      = some (PhysShape.box 2 1, Geometry.plane 4 2)) :=
  ⟨rfl, zone_rectangle_fixture_mesh "g" rectSpec42 ⟨4, 2⟩ rfl⟩

/-- Claim C8: for every polygon Zone spec, construction succeeds and the
visual shape points and the fixture polygon points are built from the
same ordered point list: both have the spec's length and agree at every
index. -/
theorem zone_polygon_shared_points (guid : String) (spec : IZoneSpec)
    (p : IPolygonZoneSpec) (h1 : spec.rectangleZone = none)
    (h2 : spec.ellipseZone = none) (h3 : spec.polygonZone = some p) :
    ∃ shapePts fixturePts : List Vector2d,
      ((Zone.construct guid spec).result.toOption.map
        (fun z => (z.mesh.geometry, z.fixtureSpecs.shape)))
        = some (Geometry.shapePoints shapePts, PhysShape.polygon fixturePts) ∧
      shapePts.length = p.points.length ∧
      fixturePts.length = p.points.length ∧
      ∀ i : ℕ, shapePts[i]? = fixturePts[i]? := by
  refine ⟨p.points.map (fun pt => ⟨pt.x, pt.y⟩),
    p.points.map (fun pt => ⟨pt.x, pt.y⟩), ?_, by simp, by simp, fun i => rfl⟩
  simp [Zone.construct, Except.toOption, h1, h2, h3]

/-- Claim C8, witness: the polygon property instantiated at a concrete
three-point polygon zone spec. -/
theorem zone_polygon_shared_points_witness :
    (polySpec3.rectangleZone = none ∧ polySpec3.ellipseZone = none ∧
     polySpec3.polygonZone = some ⟨[⟨0, 0⟩, ⟨1, 0⟩, ⟨0, 1⟩]⟩) ∧
    ∃ shapePts fixturePts : List Vector2d,
      ((Zone.construct "g" polySpec3).result.toOption.map
        (fun z => (z.mesh.geometry, z.fixtureSpecs.shape)))
        = some (Geometry.shapePoints shapePts, PhysShape.polygon fixturePts) ∧
      shapePts.length
        = (⟨[⟨0, 0⟩, ⟨1, 0⟩, ⟨0, 1⟩]⟩ : IPolygonZoneSpec).points.length ∧
      fixturePts.length
        = (⟨[⟨0, 0⟩, ⟨1, 0⟩, ⟨0, 1⟩]⟩ : IPolygonZoneSpec).points.length ∧
      ∀ i : ℕ, shapePts[i]? = fixturePts[i]? :=
  ⟨⟨rfl, rfl, rfl⟩,
    zone_polygon_shared_points "g" polySpec3 ⟨[⟨0, 0⟩, ⟨1, 0⟩, ⟨0, 1⟩]⟩
      rfl rfl rfl⟩

/-- Claim C10: for every Zone spec with more than one shape variant
present, construction emits no warning and silently uses the first
match in the order rectangle, ellipse, polygon: with a rectangle present
the fixture and geometry come from the rectangle; with no rectangle but
an ellipse present they come from the ellipse. -/
theorem zone_variant_precedence (guid : String) (spec : IZoneSpec)
    (h : 2 ≤ spec.variantCount) :
    (Zone.construct guid spec).warnings = [] ∧
    (∀ r, spec.rectangleZone = some r →
      ((Zone.construct guid spec).result.toOption.map
        (fun z => (z.fixtureSpecs.shape, z.mesh.geometry)))
        = some (PhysShape.box (r.xLength / 2) (r.zLength / 2),
            Geometry.plane r.xLength r.zLength)) ∧
    (spec.rectangleZone = none → ∀ e, spec.ellipseZone = some e →
      ((Zone.construct guid spec).result.toOption.map
        (fun z => (z.fixtureSpecs.shape, z.mesh.geometry)))
        = some (PhysShape.box e.xRadius e.zRadius,
            Geometry.shapeEllipse (spec.initialPosition.getD ⟨0, 0⟩).x
              (spec.initialPosition.getD ⟨0, 0⟩).y e.xRadius e.zRadius)) := by
  rcases hr : spec.rectangleZone with _ | r <;>
  rcases he : spec.ellipseZone with _ | e <;>
  rcases hp : spec.polygonZone with _ | p <;>
  rcases hip : spec.initialPosition with _ | ip <;>
  simp [IZoneSpec.variantCount, hr, he, hp] at h <;>
  simp [Zone.construct, Except.toOption, hr, he, hp, hip]

/-- Claim C10, witness: the precedence property instantiated at a
concrete spec carrying both a rectangle and an ellipse variant. -/
theorem zone_variant_precedence_witness :
    2 ≤ twoShapeSpec.variantCount ∧
    ((Zone.construct "g" twoShapeSpec).warnings = [] ∧
    (∀ r, twoShapeSpec.rectangleZone = some r →
      ((Zone.construct "g" twoShapeSpec).result.toOption.map
        (fun z => (z.fixtureSpecs.shape, z.mesh.geometry)))
        = some (PhysShape.box (r.xLength / 2) (r.zLength / 2),
            Geometry.plane r.xLength r.zLength)) ∧
    (twoShapeSpec.rectangleZone = none → ∀ e,
      twoShapeSpec.ellipseZone = some e →
      ((Zone.construct "g" twoShapeSpec).result.toOption.map
        (fun z => (z.fixtureSpecs.shape, z.mesh.geometry)))
        = some (PhysShape.box e.xRadius e.zRadius,
            Geometry.shapeEllipse (twoShapeSpec.initialPosition.getD ⟨0, 0⟩).x
              (twoShapeSpec.initialPosition.getD ⟨0, 0⟩).y
              e.xRadius e.zRadius))) :=
  ⟨by decide, zone_variant_precedence "g" twoShapeSpec (by decide)⟩

end SimCore
